import Mathlib

set_option maxRecDepth 100000

/-!
# Verification of the StellarGraph repository excerpt

This development embeds the repository's visible artefacts — a GitHub
Actions CI workflow and four Jupyter demo notebooks — as Lean data,
together with spec-modelled definitions of the library entry points
(`StellarGraph`, `IndexedArray`) that the excerpt only calls, and proves
or refutes the specification's claims about them.

The notebooks are JSON documents; their code cells are embedded below as
lists of `(execution_count, source)` pairs, in document order, with the
source text reproduced verbatim (braces, apostrophes and backticks are
written with hexadecimal escapes).  The CI workflow is embedded as
structured data mirroring the YAML.
-/

namespace StellarGraphSpec

/-- A code cell of a Jupyter notebook: its recorded `execution_count` and
its source text (the concatenation of the JSON `source` lines). -/
structure NBCell where
  executionCount : Nat
  source : String
deriving DecidableEq

/-- Code cells of the notebook `demos/basics/loading-numpy.ipynb` (the second document of `src/unnamed/part_000`), in document order: recorded execution count and verbatim source. -/
def loadingNumpyCells : List NBCell := [
  ⟨1, "# install StellarGraph if running on Google Colab\nimport sys\nif \x27google.colab\x27 in sys.modules:\n  %pip install -q stellargraph[demos]==1.2.1"⟩,
  ⟨2, "# verify that we\x27re using the correct version of StellarGraph for this notebook\nimport stellargraph as sg\n\ntry:\n    sg.utils.validate_notebook_version(\"1.2.1\")\nexcept AttributeError:\n    raise ValueError(\n        f\"This notebook requires StellarGraph version 1.2.1, but a different version \x7bsg.__version__\x7d is installed.  Please see <https://github.com/stellargraph/stellargraph/issues/1172>.\"\n    ) from None"⟩,
  ⟨3, "from stellargraph import StellarGraph"⟩,
  ⟨4, "import numpy as np\nimport pandas as pd"⟩,
  ⟨5, "square_numeric_edges = pd.DataFrame(\n    \x7b\"source\": [0, 1, 2, 3, 0], \"target\": [1, 2, 3, 0, 2]\x7d\n)\nsquare_numeric_edges"⟩,
  ⟨6, "feature_array = np.array(\n    [[1.0, -0.2], [2.0, 0.3], [3.0, 0.0], [4.0, -0.5]], dtype=np.float32\n)\nfeature_array"⟩,
  ⟨7, "square_numeric = StellarGraph(feature_array, square_numeric_edges)"⟩,
  ⟨8, "print(square_numeric.info())"⟩,
  ⟨9, "square_numeric_named = StellarGraph(\n    feature_array,\n    square_numeric_edges,\n    node_type_default=\"corner\",\n    edge_type_default=\"line\",\n)\nprint(square_numeric_named.info())"⟩,
  ⟨10, "square_edges = pd.DataFrame(\n    \x7b\"source\": [\"a\", \"b\", \"c\", \"d\", \"a\"], \"target\": [\"b\", \"c\", \"d\", \"a\", \"c\"]\x7d\n)\nsquare_edges"⟩,
  ⟨11, "from stellargraph import IndexedArray"⟩,
  ⟨12, "indexed_array = IndexedArray(feature_array, index=[\"a\", \"b\", \"c\", \"d\"])"⟩,
  ⟨13, "square_named = StellarGraph(\n    indexed_array, square_edges, node_type_default=\"corner\", edge_type_default=\"line\",\n)\nprint(square_named.info())"⟩,
  ⟨14, "feature_tensors = np.array(\n    [\n        [[1.0, -0.2], [1.0, 0.1], [0.9, 0.1]],\n        [[2.0, 0.3], [1.9, 0.31], [2.1, 0.32]],\n        [[3.0, 0.0], [10.0, 0.0], [3.0, 0.0]],\n        [[4.0, -0.5], [0.0, -1.0], [1.0, -3.0]],\n    ],\n    dtype=np.float32,\n)\nfeature_tensors"⟩,
  ⟨15, "indexed_tensors = IndexedArray(feature_tensors, index=[\"a\", \"b\", \"c\", \"d\"])"⟩,
  ⟨16, "square_tensors = StellarGraph(\n    indexed_tensors, square_edges, node_type_default=\"corner\", edge_type_default=\"line\",\n)\nprint(square_tensors.info())"⟩,
  ⟨17, "square_foo = IndexedArray(index=[\"a\"])"⟩,
  ⟨18, "bar_features = np.array([[0.4, 100], [0.1, 200], [0.9, 300]])\nbar_features"⟩,
  ⟨19, "square_bar = IndexedArray(bar_features, index=[\"b\", \"c\", \"d\"])"⟩,
  ⟨20, "square_foo_and_bar = StellarGraph(\x7b\"foo\": square_foo, \"bar\": square_bar\x7d, square_edges)\nprint(square_foo_and_bar.info())"⟩,
  ⟨21, "square_foo_overlap = IndexedArray(index=[\"b\"])"⟩,
  ⟨22, "# Uncomment to see the error\n# StellarGraph(\x7b\"foo\": square_foo_overlap, \"bar\": square_bar\x7d, square_edges)"⟩,
  ⟨23, "square_foo_overlap_prefix = IndexedArray(\n    square_foo_overlap.values, index=[f\"foo-\x7bs\x7d\" for s in square_foo_overlap.index]\n)"⟩,
  ⟨24, "square_bar_prefix = IndexedArray(\n    square_bar.values, index=[f\"bar-\x7bs\x7d\" for s in square_bar.index]\n)"⟩,
  ⟨25, "foo_tensors = np.array([[[1.0, -0.2], [1.0, 0.1], [0.9, 0.1]]])\nfoo_tensors"⟩,
  ⟨26, "square_foo_tensors = IndexedArray(foo_tensors, index=[\"a\"])"⟩,
  ⟨27, "square_foo_tensors_and_bar = StellarGraph(\n    \x7b\"foo\": square_foo_tensors, \"bar\": square_bar\x7d, square_edges\n)\nprint(square_foo_tensors_and_bar.info())"⟩
]

/-- Code cells of the notebook `demos/connector/neo4j/load-cora-into-neo4j.ipynb` (`src/unnamed/part_001`), in document order. -/
def loadCoraNeo4jCells : List NBCell := [
  ⟨1, "# install StellarGraph if running on Google Colab\nimport sys\nif \x27google.colab\x27 in sys.modules:\n  %pip install -q stellargraph[demos]==1.2.1"⟩,
  ⟨2, "# verify that we\x27re using the correct version of StellarGraph for this notebook\nimport stellargraph as sg\n\ntry:\n    sg.utils.validate_notebook_version(\"1.2.1\")\nexcept AttributeError:\n    raise ValueError(\n        f\"This notebook requires StellarGraph version 1.2.1, but a different version \x7bsg.__version__\x7d is installed.  Please see <https://github.com/stellargraph/stellargraph/issues/1172>.\"\n    ) from None"⟩,
  ⟨3, "import pandas as pd\nimport os\nfrom stellargraph import datasets\nfrom IPython.display import display, HTML"⟩,
  ⟨4, "dataset = datasets.Cora()\ndisplay(HTML(dataset.description))\ndataset.download()"⟩,
  ⟨5, "edge_list = pd.read_csv(\n    os.path.join(dataset.data_directory, \"cora.cites\"),\n    sep=\"\\t\",\n    header=None,\n    names=[\"target\", \"source\"],\n)\nedge_list[\"label\"] = \"cites\""⟩,
  ⟨6, "display(edge_list.head(5))"⟩,
  ⟨7, "feature_names = [\"w_\x7b\x7d\".format(ii) for ii in range(1433)]\ncolumn_names = feature_names + [\"subject\"]\nnode_list = pd.read_csv(\n    os.path.join(dataset.data_directory, \"cora.content\"),\n    sep=\"\\t\",\n    header=None,\n    names=column_names,\n)"⟩,
  ⟨8, "# gather all features into lists under \x27features\x27 column.\nnode_list[\"features\"] = node_list[feature_names].values.tolist()\n\nnode_list = node_list.drop(columns=feature_names)\nnode_list[\"id\"] = node_list.index\nnode_list.head(5)"⟩,
  ⟨9, "import time"⟩,
  ⟨10, "import py2neo\n\ndefault_host = os.environ.get(\"STELLARGRAPH_NEO4J_HOST\")\n\n# Create the Neo4j Graph database object; the arguments can be edited to specify location and authentication\ngraph = py2neo.Graph(host=default_host, port=None, user=None, password=None)"⟩,
  ⟨11, "empty_db_query = \"\"\"\n    MATCH(n) DETACH\n    DELETE(n)\n    \"\"\"\n\ntx = graph.begin(autocommit=True)\ntx.evaluate(empty_db_query)"⟩,
  ⟨12, "constraints = graph.run(\"CALL db.constraints\").data()\nfor constraint in constraints:\n    graph.run(f\"DROP CONSTRAINT \x7bconstraint[\x27name\x27]\x7d\")\n\nindexes = graph.run(\"CALL db.indexes\").data()\nfor index in indexes:\n    graph.run(f\"DROP INDEX \x7bindex[\x27name\x27]\x7d\")"⟩,
  ⟨13, "loading_node_query = \"\"\"\n    UNWIND $node_list as node\n    CREATE( e: paper \x7b\n        ID: toInteger(node.id),\n        subject: node.subject,\n        features: node.features\n    \x7d)\n    \"\"\"\n\n# For efficient loading, we will load batch of nodes into Neo4j.\nbatch_len = 500\n\nfor batch_start in range(0, len(node_list), batch_len):\n    batch_end = batch_start + batch_len\n    # turn node dataframe into a list of records\n    records = node_list.iloc[batch_start:batch_end].to_dict(\"records\")\n    tx = graph.begin(autocommit=True)\n    tx.evaluate(loading_node_query, parameters=\x7b\"node_list\": records\x7d)"⟩,
  ⟨14, "loading_edge_query = \"\"\"\n    UNWIND $edge_list as edge\n    \n    MATCH(source: paper \x7bID: toInteger(edge.source)\x7d)\n    MATCH(target: paper \x7bID: toInteger(edge.target)\x7d)\n    \n    MERGE (source)-[r:cites]->(target)\n    \"\"\"\n\nbatch_len = 500\n\nfor batch_start in range(0, len(edge_list), batch_len):\n    batch_end = batch_start + batch_len\n    # turn edge dataframe into a list of records\n    records = edge_list.iloc[batch_start:batch_end].to_dict(\"records\")\n    tx = graph.begin(autocommit=True)\n    tx.evaluate(loading_edge_query, parameters=\x7b\"edge_list\": records\x7d)"⟩,
  ⟨15, "node_id_constraint = \"\"\"\n    CREATE CONSTRAINT\n    ON (n:paper)\n    ASSERT n.ID IS UNIQUE\n    \"\"\"\n\ntx = graph.begin(autocommit=True)\ntx.evaluate(node_id_constraint)"⟩
]

/-- Code cells of the notebook `demos/graph-classification/gcn-supervised-graph-classification.ipynb` (`src/unnamed/part_002`), in document order. -/
def gcnGraphClassificationCells : List NBCell := [
  ⟨1, "# install StellarGraph if running on Google Colab\nimport sys\nif \x27google.colab\x27 in sys.modules:\n  %pip install -q stellargraph[demos]==1.2.1"⟩,
  ⟨2, "# verify that we\x27re using the correct version of StellarGraph for this notebook\nimport stellargraph as sg\n\ntry:\n    sg.utils.validate_notebook_version(\"1.2.1\")\nexcept AttributeError:\n    raise ValueError(\n        f\"This notebook requires StellarGraph version 1.2.1, but a different version \x7bsg.__version__\x7d is installed.  Please see <https://github.com/stellargraph/stellargraph/issues/1172>.\"\n    ) from None"⟩,
  ⟨3, "import pandas as pd\nimport numpy as np\n\nimport stellargraph as sg\nfrom stellargraph.mapper import PaddedGraphGenerator\nfrom stellargraph.layer import GCNSupervisedGraphClassification\nfrom stellargraph import StellarGraph\n\nfrom stellargraph import datasets\n\nfrom sklearn import model_selection\nfrom IPython.display import display, HTML\n\nfrom tensorflow.keras import Model\nfrom tensorflow.keras.optimizers import Adam\nfrom tensorflow.keras.layers import Dense\nfrom tensorflow.keras.losses import binary_crossentropy\nfrom tensorflow.keras.callbacks import EarlyStopping\nimport tensorflow as tf\nimport matplotlib.pyplot as plt"⟩,
  ⟨4, "dataset = datasets.MUTAG()\ndisplay(HTML(dataset.description))\ngraphs, graph_labels = dataset.load()"⟩,
  ⟨5, "print(graphs[0].info())"⟩,
  ⟨6, "print(graphs[1].info())"⟩,
  ⟨7, "summary = pd.DataFrame(\n    [(g.number_of_nodes(), g.number_of_edges()) for g in graphs],\n    columns=[\"nodes\", \"edges\"],\n)\nsummary.describe().round(1)"⟩,
  ⟨8, "graph_labels.value_counts().to_frame()"⟩,
  ⟨9, "graph_labels = pd.get_dummies(graph_labels, drop_first=True)"⟩,
  ⟨10, "generator = PaddedGraphGenerator(graphs=graphs)"⟩,
  ⟨11, "def create_graph_classification_model(generator):\n    gc_model = GCNSupervisedGraphClassification(\n        layer_sizes=[64, 64],\n        activations=[\"relu\", \"relu\"],\n        generator=generator,\n        dropout=0.5,\n    )\n    x_inp, x_out = gc_model.in_out_tensors()\n    predictions = Dense(units=32, activation=\"relu\")(x_out)\n    predictions = Dense(units=16, activation=\"relu\")(predictions)\n    predictions = Dense(units=1, activation=\"sigmoid\")(predictions)\n\n    # Let\x27s create the Keras model and prepare it for training\n    model = Model(inputs=x_inp, outputs=predictions)\n    model.compile(optimizer=Adam(0.005), loss=binary_crossentropy, metrics=[\"acc\"])\n\n    return model"⟩,
  ⟨12, "epochs = 200  # maximum number of training epochs\nfolds = 10  # the number of folds for k-fold cross validation\nn_repeats = 5  # the number of repeats for repeated k-fold cross validation"⟩,
  ⟨13, "es = EarlyStopping(\n    monitor=\"val_loss\", min_delta=0, patience=25, restore_best_weights=True\n)"⟩,
  ⟨14, "def train_fold(model, train_gen, test_gen, es, epochs):\n    history = model.fit(\n        train_gen, epochs=epochs, validation_data=test_gen, verbose=0, callbacks=[es],\n    )\n    # calculate performance on the test data and return along with history\n    test_metrics = model.evaluate(test_gen, verbose=0)\n    test_acc = test_metrics[model.metrics_names.index(\"acc\")]\n\n    return history, test_acc"⟩,
  ⟨15, "def get_generators(train_index, test_index, graph_labels, batch_size):\n    train_gen = generator.flow(\n        train_index, targets=graph_labels.iloc[train_index].values, batch_size=batch_size\n    )\n    test_gen = generator.flow(\n        test_index, targets=graph_labels.iloc[test_index].values, batch_size=batch_size\n    )\n\n    return train_gen, test_gen"⟩,
  ⟨16, "test_accs = []\n\nstratified_folds = model_selection.RepeatedStratifiedKFold(\n    n_splits=folds, n_repeats=n_repeats\n).split(graph_labels, graph_labels)\n\nfor i, (train_index, test_index) in enumerate(stratified_folds):\n    print(f\"Training and evaluating on fold \x7bi+1\x7d out of \x7bfolds * n_repeats\x7d...\")\n    train_gen, test_gen = get_generators(\n        train_index, test_index, graph_labels, batch_size=30\n    )\n\n    model = create_graph_classification_model(generator)\n\n    history, acc = train_fold(model, train_gen, test_gen, es, epochs)\n\n    test_accs.append(acc)"⟩,
  ⟨17, "print(\n    f\"Accuracy over all folds mean: \x7bnp.mean(test_accs)*100:.3\x7d% and std: \x7bnp.std(test_accs)*100:.2\x7d%\"\n)"⟩,
  ⟨18, "plt.figure(figsize=(8, 6))\nplt.hist(test_accs)\nplt.xlabel(\"Accuracy\")\nplt.ylabel(\"Count\")"⟩
]

/-- Code cells of the notebook `demos/basics/loading-networkx.ipynb`, in document order. -/
def loadingNetworkxCells : List NBCell := [
  ⟨1, "# install StellarGraph if running on Google Colab\nimport sys\nif \x27google.colab\x27 in sys.modules:\n  %pip install -q stellargraph[demos]==1.2.1"⟩,
  ⟨2, "# verify that we\x27re using the correct version of StellarGraph for this notebook\nimport stellargraph as sg\n\ntry:\n    sg.utils.validate_notebook_version(\"1.2.1\")\nexcept AttributeError:\n    raise ValueError(\n        f\"This notebook requires StellarGraph version 1.2.1, but a different version \x7bsg.__version__\x7d is installed.  Please see <https://github.com/stellargraph/stellargraph/issues/1172>.\"\n    ) from None"⟩,
  ⟨3, "from stellargraph import StellarGraph"⟩,
  ⟨4, "import networkx as nx"⟩,
  ⟨5, "g = nx.Graph()\ng.add_edge(\"a\", \"b\")\ng.add_edge(\"b\", \"c\")\ng.add_edge(\"c\", \"d\")\ng.add_edge(\"d\", \"a\")\n# diagonal\ng.add_edge(\"a\", \"c\")"⟩,
  ⟨6, "square = StellarGraph.from_networkx(g)"⟩,
  ⟨7, "print(square.info())"⟩,
  ⟨8, "square_named = StellarGraph.from_networkx(\n    g, node_type_default=\"paper\", edge_type_default=\"cites\"\n)\nprint(square_named.info())"⟩,
  ⟨9, "g_feature_attr = g.copy()\n\n\ndef compute_features(node_id):\n    # in general this could compute something based on other features, but for this example,\n    # we don\x27t have any other features, so we\x27ll just do something basic with the node_id\n    return [ord(node_id), len(node_id)]\n\n\nfor node_id, node_data in g_feature_attr.nodes(data=True):\n    node_data[\"feature\"] = compute_features(node_id)\n\n# let\x27s see what some of them look like:\ng_feature_attr.nodes[\"a\"], g_feature_attr.nodes[\"c\"]"⟩,
  ⟨10, "square_feature_attr = StellarGraph.from_networkx(g_feature_attr, node_features=\"feature\")\nprint(square_feature_attr.info())"⟩,
  ⟨11, "import pandas as pd\n\nfeatures = pd.DataFrame(\n    \x7b\"x\": [1, 2, 3, 4], \"y\": [-0.2, 0.3, 0.0, -0.5]\x7d, index=[\"a\", \"b\", \"c\", \"d\"]\n)\nfeatures"⟩,
  ⟨12, "square_feature_dataframe = StellarGraph.from_networkx(\n    g_feature_attr, node_features=features\n)\nprint(square_feature_dataframe.info())"⟩,
  ⟨13, "g_weighted = nx.Graph()\ng_weighted.add_edge(\"a\", \"b\", weight=1.0)\ng_weighted.add_edge(\"b\", \"c\", weight=2.0)\ng_weighted.add_edge(\"c\", \"d\", weight=3.0)\ng_weighted.add_edge(\"d\", \"a\", weight=4.0)\n# diagonal\ng_weighted.add_edge(\"a\", \"c\", weight=5.0)\n\nsquare_weighted = StellarGraph.from_networkx(g_weighted)\nprint(square_weighted.info())"⟩,
  ⟨14, "g_weighted_other = nx.Graph()\ng_weighted_other.add_edge(\"a\", \"b\", distance=1.0)\ng_weighted_other.add_edge(\"b\", \"c\", distance=2.0)\ng_weighted_other.add_edge(\"c\", \"d\", distance=3.0)\ng_weighted_other.add_edge(\"d\", \"a\", distance=4.0)\n# diagonal\ng_weighted_other.add_edge(\"a\", \"c\", distance=5.0)\n\nsquare_weighted_other = StellarGraph.from_networkx(\n    g_weighted, edge_weight_attr=\"distance\"\n)\nprint(square_weighted.info())"⟩,
  ⟨15, "g_directed = nx.DiGraph()\ng_directed.add_edge(\"a\", \"b\")\ng_directed.add_edge(\"b\", \"c\")\ng_directed.add_edge(\"c\", \"d\")\ng_directed.add_edge(\"d\", \"a\")\n# diagonal\ng_directed.add_edge(\"a\", \"c\")\n\nsquare_directed = StellarGraph.from_networkx(g_directed)\nprint(square_directed.info())"⟩,
  ⟨16, "g_foo_bar = g.copy()\nnx.set_node_attributes(\n    g_foo_bar, \x7b\"a\": \"foo\", \"b\": \"bar\", \"c\": \"bar\", \"d\": \"bar\"\x7d, \"label\"\n)\n\nsquare_foo_bar = StellarGraph.from_networkx(g_foo_bar)\nprint(square_foo_bar.info())"⟩,
  ⟨17, "g_foo = g.copy()\n# only \x27a\x27 has a label attribute\ng_foo.nodes[\"a\"][\"label\"] = \"foo\"\n\nsquare_foo_bar_default = StellarGraph.from_networkx(g_foo, node_type_default=\"bar\")\nprint(square_foo_bar_default.info())"⟩,
  ⟨18, "g_foo_other = g.copy()\n# only \x27a\x27 has a type attribute\ng_foo_other.nodes[\"a\"][\"type\"] = \"foo\"\n\nsquare_foo_bar_other = StellarGraph.from_networkx(\n    g_foo, node_type_default=\"bar\", node_type_attr=\"type\"\n)\nprint(square_foo_bar_other.info())"⟩,
  ⟨19, "g_foo_bar_attr = g_foo_bar.copy()\nnx.set_node_attributes(\n    g_foo_bar_attr,\n    \x7b\"a\": [], \"b\": [0.4, 100], \"c\": [0.1, 200], \"d\": [0.9, 300]\x7d,\n    \"feature\",\n)"⟩,
  ⟨20, "square_foo_bar_features_attr = StellarGraph.from_networkx(\n    g_foo_bar_attr, node_features=\"feature\"\n)\nprint(square_foo_bar_features_attr.info())"⟩,
  ⟨21, "features_bar = pd.DataFrame(\n    \x7b\"y\": [0.4, 0.1, 0.9], \"z\": [100, 200, 300]\x7d, index=[\"b\", \"c\", \"d\"]\n)\nfeatures_bar"⟩,
  ⟨22, "square_foo_bar_features_dataframe = StellarGraph.from_networkx(\n    g_foo_bar, node_features=\x7b\"bar\": features_bar\x7d\n)\nprint(square_foo_bar_features_dataframe.info())"⟩,
  ⟨23, "g_orientation = nx.Graph()\ng_orientation.add_edge(\"a\", \"b\", label=\"horizontal\")\ng_orientation.add_edge(\"b\", \"c\", label=\"vertical\")\ng_orientation.add_edge(\"c\", \"d\", label=\"horizontal\")\ng_orientation.add_edge(\"d\", \"a\", label=\"vertical\")\ng_orientation.add_edge(\"a\", \"c\", label=\"diagonal\")"⟩,
  ⟨24, "square_orientation = StellarGraph.from_networkx(g_orientation)\nprint(square_orientation.info())"⟩,
  ⟨25, "g_everything = g_orientation.copy()\nnx.set_node_attributes(\n    g_everything, \x7b\"a\": \"foo\", \"b\": \"bar\", \"c\": \"bar\", \"d\": \"bar\"\x7d, \"label\"\n)"⟩,
  ⟨26, "stellar_everything = StellarGraph.from_networkx(\n    g_everything, node_features=\x7b\"bar\": features_bar\x7d\n)\nprint(stellar_everything.info())"⟩
]

/-- The recorded execution counts of a notebook's code cells, in document
order. -/
def executionCounts (cells : List NBCell) : List Nat :=
  cells.map (fun c => c.executionCount)

/-- The sequence `1, 2, ..., n`. -/
def countUpFrom1 (n : Nat) : List Nat :=
  (List.range n).map (fun i => i + 1)

/-- `startsWithChars needle hay` is `true` when `needle` is an initial
segment of `hay`. -/
def startsWithChars : List Char → List Char → Bool
  | [], _ => true
  | _ :: _, [] => false
  | a :: as, b :: bs => a == b && startsWithChars as bs

/-- `occursChars needle hay` is `true` when `needle` occurs contiguously
in `hay`. -/
def occursChars (needle : List Char) : List Char → Bool
  | [] => startsWithChars needle []
  | b :: bs => startsWithChars needle (b :: bs) || occursChars needle bs

/-- Substring test used to inspect the embedded notebook source text. -/
def srcContains (hay needle : String) : Bool :=
  occursChars needle.toList hay.toList

/-- A code cell makes use of the stellargraph library when it imports it
(`import stellargraph ...` or `from stellargraph import ...`). -/
def usesStellargraph (c : NBCell) : Bool :=
  srcContains c.source "import stellargraph" || srcContains c.source "from stellargraph"

/-- A version-check cell: it calls
`sg.utils.validate_notebook_version("1.2.1")` inside a `try` block,
catches `AttributeError`, and raises a `ValueError` whose message
interpolates the installed version `sg.__version__`. -/
def isVersionCheckCell (c : NBCell) : Bool :=
  srcContains c.source "sg.utils.validate_notebook_version(\"1.2.1\")" &&
    srcContains c.source "except AttributeError:" &&
    srcContains c.source "raise ValueError(" &&
    srcContains c.source "version \x7bsg.__version__\x7d is installed"

/-- The first code cell of the notebook that uses the stellargraph
library is a version-check cell (so the version is validated before any
other use of the library). -/
def checksVersionBeforeUse : List NBCell → Bool
  | [] => false
  | c :: rest =>
    if usesStellargraph c then isVersionCheckCell c else checksVersionBeforeUse rest

/-- Modelled from the spec: `sg.utils.validate_notebook_version` is part
of the stellargraph library, which is not included in the excerpt; what
is in the excerpt is each notebook's version-check cell, whose control
flow this function reproduces.  When the utility does not exist (an older
installation raises `AttributeError`), the cell raises a `ValueError`
naming the installed version `sg.__version__`; when the utility exists,
the cell defers to it and proceeds. -/
def runVersionCheckCell (utilityExists : Bool) (installedVersion : String) :
    Except String Unit :=
  if utilityExists then Except.ok ()
  else Except.error
    ("This notebook requires StellarGraph version 1.2.1, but a different version "
      ++ installedVersion
      ++ " is installed.  Please see <https://github.com/stellargraph/stellargraph/issues/1172>.")

/-- A step of a GitHub Actions job, as written in the workflow file.  The
fields record, in order: the step's `name`, its `uses` action, its `run`
script, and the `with` arguments `python-version`, `name` and `path`;
`ifAlways` is `true` when the step carries `if: $\x7b\x7b always() \x7d\x7d`.
The cache keys of the `actions/cache` steps, the `env_vars` argument of the
codecov step and the `id` of the papermill step are not modelled: no claim
mentions them. -/
structure Step where
  name : Option String
  uses : Option String
  run : Option String
  withPythonVersion : Option String
  withName : Option String
  withPath : Option String
  ifAlways : Bool
deriving DecidableEq

/-- The workflow's `on:` triggers: the branch filter of the `push` trigger
(`none` would mean no filter) and whether a `pull_request` trigger is
present (it has no filter). -/
structure WorkflowTriggers where
  pushBranches : Option (List String)
  pullRequest : Bool

/-- The `on:` block of the CI workflow: `push` restricted to the branches
`develop` and `master`, and an unrestricted `pull_request` trigger. -/
def ciTriggers : WorkflowTriggers :=
  ⟨some ["develop", "master"], true⟩

/-- GitHub Actions semantics of the `push` trigger: with a `branches`
filter the workflow runs only for pushes to a listed branch. -/
def runsOnPushTo (t : WorkflowTriggers) (branch : String) : Bool :=
  match t.pushBranches with
  | none => true
  | some bs => bs.contains branch

/-- GitHub Actions semantics of the `pull_request` trigger: with no filter
the workflow runs for every pull request. -/
def runsOnPullRequest (t : WorkflowTriggers) : Bool :=
  t.pullRequest

/-- The `build` job's matrix dimension `python-version: [3.6, 3.7, 3.8]`. -/
def buildPythonVersions : List String :=
  ["3.6", "3.7", "3.8"]

/-- The steps of the `build` job, in order. -/
def buildSteps : List Step := [
  ⟨none, some "actions/checkout@v2", none, none, none, none, false⟩,
  ⟨some "Setup Python", some "actions/setup-python@v2", none,
    some "$\x7b\x7b matrix.python-version \x7d\x7d", none, none, false⟩,
  ⟨some "Restore cache", some "actions/cache@v2", none, none, none,
    some "~/.cache/pip", false⟩,
  ⟨some "Install dependencies", none,
    some "python -m pip install --upgrade pip\npip install .[test,demos]\n",
    none, none, none, false⟩,
  ⟨some "Run pytest tests", none,
    some "# benchmarks on shared infrastructure like the CI machines are usually unreliable (high\n# variance), so there\x27s no point spending too much time, hence --benchmark-disable which\n# just runs them once (as a test)\npy.test -ra tests/ --doctest-modules \\\n    --cov=stellargraph --cov-report=xml \\\n    -p no:cacheprovider --junitxml=\"pytest-results-$\x7b\x7b matrix.python-version \x7d\x7d.xml\" \\\n    --benchmark-disable\n",
    none, none, none, false⟩,
  ⟨some "Upload pytest test results", some "actions/upload-artifact@v1", none, none,
    some "pytest-results-$\x7b\x7b matrix.python-version \x7d\x7d",
    some "pytest-results-$\x7b\x7b matrix.python-version \x7d\x7d.xml", true⟩,
  ⟨some "Upload coverage to Codecov", some "codecov/codecov-action@v1", none,
    none, none, none, false⟩
]

/-- The `notebooks` job's matrix dimension `notebook:` — the list of all
notebooks, in order. -/
def notebookMatrixList : List String := [
  "demos/basics/loading-networkx.ipynb",
  "demos/basics/loading-numpy.ipynb",
  "demos/basics/loading-pandas.ipynb",
  "demos/basics/loading-saving-neo4j.ipynb",
  "demos/calibration/calibration-link-prediction.ipynb",
  "demos/calibration/calibration-node-classification.ipynb",
  "demos/community_detection/attacks_clustering_analysis.ipynb",
  "demos/connector/neo4j/cluster-gcn-on-cora-neo4j-example.ipynb",
  "demos/connector/neo4j/directed-graphsage-on-cora-neo4j-example.ipynb",
  "demos/connector/neo4j/load-cora-into-neo4j.ipynb",
  "demos/connector/neo4j/undirected-graphsage-on-cora-neo4j-example.ipynb",
  "demos/embeddings/attri2vec-embeddings.ipynb",
  "demos/embeddings/deep-graph-infomax-embeddings.ipynb",
  "demos/embeddings/gcn-unsupervised-graph-embeddings.ipynb",
  "demos/embeddings/graphsage-unsupervised-sampler-embeddings.ipynb",
  "demos/embeddings/graphwave-embeddings.ipynb",
  "demos/embeddings/keras-node2vec-embeddings.ipynb",
  "demos/embeddings/metapath2vec-embeddings.ipynb",
  "demos/embeddings/node2vec-embeddings.ipynb",
  "demos/embeddings/watch-your-step-embeddings.ipynb",
  "demos/ensembles/ensemble-link-prediction-example.ipynb",
  "demos/ensembles/ensemble-node-classification-example.ipynb",
  "demos/graph-classification/dgcnn-graph-classification.ipynb",
  "demos/graph-classification/gcn-supervised-graph-classification.ipynb",
  "demos/interpretability/gat-node-link-importance.ipynb",
  "demos/interpretability/gcn-node-link-importance.ipynb",
  "demos/interpretability/gcn-sparse-node-link-importance.ipynb",
  "demos/interpretability/hateful-twitters-interpretability.ipynb",
  "demos/link-prediction/attri2vec-link-prediction.ipynb",
  "demos/link-prediction/complex-link-prediction.ipynb",
  "demos/link-prediction/ctdne-link-prediction.ipynb",
  "demos/link-prediction/distmult-link-prediction.ipynb",
  "demos/link-prediction/gcn-link-prediction.ipynb",
  "demos/link-prediction/graphsage-link-prediction.ipynb",
  "demos/link-prediction/hinsage-link-prediction.ipynb",
  "demos/link-prediction/homogeneous-comparison-link-prediction.ipynb",
  "demos/link-prediction/metapath2vec-link-prediction.ipynb",
  "demos/link-prediction/node2vec-link-prediction.ipynb",
  "demos/node-classification/attri2vec-node-classification.ipynb",
  "demos/node-classification/cluster-gcn-node-classification.ipynb",
  "demos/node-classification/directed-graphsage-node-classification.ipynb",
  "demos/node-classification/gat-node-classification.ipynb",
  "demos/node-classification/gcn-deep-graph-infomax-fine-tuning-node-classification.ipynb",
  "demos/node-classification/gcn-node-classification.ipynb",
  "demos/node-classification/gcn/gcn-cora-node-classification-example.ipynb",
  "demos/node-classification/graphsage-inductive-node-classification.ipynb",
  "demos/node-classification/graphsage-node-classification.ipynb",
  "demos/node-classification/keras-node2vec-node-classification.ipynb",
  "demos/node-classification/node2vec-node-classification.ipynb",
  "demos/node-classification/node2vec-weighted-node-classification.ipynb",
  "demos/node-classification/ppnp-node-classification.ipynb",
  "demos/node-classification/rgcn-node-classification.ipynb",
  "demos/node-classification/sgc-node-classification.ipynb",
  "demos/time-series/gcn-lstm-time-series.ipynb",
  "demos/use-cases/hateful-twitters.ipynb",
  "demos/zzz-internal-developers/graph-resource-usage.ipynb"
]

/-- The `notebooks` job's `exclude:` list, in order: first the five
notebooks that require Neo4j and are run separately, then the notebooks
that do not yet run on CI (FIXME 818: datasets cannot be downloaded;
FIXME 819: out-of-memory). -/
def notebookExcludeList : List String := [
  "demos/connector/neo4j/cluster-gcn-on-cora-neo4j-example.ipynb",
  "demos/connector/neo4j/directed-graphsage-on-cora-neo4j-example.ipynb",
  "demos/connector/neo4j/load-cora-into-neo4j.ipynb",
  "demos/connector/neo4j/undirected-graphsage-on-cora-neo4j-example.ipynb",
  "demos/basics/loading-saving-neo4j.ipynb",
  "demos/community_detection/attacks_clustering_analysis.ipynb",
  "demos/interpretability/gat-node-link-importance.ipynb",
  "demos/interpretability/gcn-node-link-importance.ipynb",
  "demos/interpretability/gcn-sparse-node-link-importance.ipynb",
  "demos/interpretability/hateful-twitters-interpretability.ipynb",
  "demos/link-prediction/attri2vec-link-prediction.ipynb",
  "demos/node-classification/rgcn-node-classification.ipynb",
  "demos/use-cases/hateful-twitters.ipynb"
]

/-- The `notebooks` job's `env: PYTHON_VERSION`. -/
def notebooksJobPythonVersion : String := "3.6"

/-- The steps of the `notebooks` job, in order.  The `Run notebook` step
has `id: run_notebook`, which the upload step's artifact name refers to. -/
def notebooksSteps : List Step := [
  ⟨none, some "actions/checkout@v2", none, none, none, none, false⟩,
  ⟨some "Setup Python", some "actions/setup-python@v2", none,
    some "$\x7b\x7b env.PYTHON_VERSION \x7d\x7d", none, none, false⟩,
  ⟨some "Restore cache", some "actions/cache@v2", none, none, none,
    some "~/.cache/pip", false⟩,
  ⟨some "Install dependencies", none,
    some "python -m pip install --upgrade pip\npip install .[test,demos]\n",
    none, none, none, false⟩,
  ⟨some "Run notebook", none,
    some "# papermill will replace parameters on some notebooks to make them run faster in CI\npapermill --execution-timeout=600 \\\n  --parameters_file \"./.buildkite/notebook-parameters.yml\" --log-output \\\n  \"$\x7b\x7b matrix.notebook \x7d\x7d\" \"$\x7b\x7b matrix.notebook \x7d\x7d\"\nnotebook_name=\"$(basename \"$\x7b\x7b matrix.notebook \x7d\x7d\")\"\necho \"::set-output name=notebook_name::$notebook_name\"\n",
    none, none, none, false⟩,
  ⟨some "Upload artifact", some "actions/upload-artifact@v1", none, none,
    some "$\x7b\x7b steps.run_notebook.outputs.notebook_name \x7d\x7d",
    some "$\x7b\x7b matrix.notebook \x7d\x7d", true⟩
]

/-- The steps of the third job, `validate-notebooks-list`, in order. -/
def validateNotebooksListSteps : List Step := [
  ⟨none, some "actions/checkout@v2", none, none, none, none, false⟩,
  ⟨some "Install dependencies", none,
    some "python3 -m pip install --upgrade pip\npython3 -m pip install PyYAML\n",
    none, none, none, false⟩,
  ⟨some "Run check", none,
    some "python3 scripts/ci_workflow_notebook_list.py\n",
    none, none, none, false⟩
]

/-- GitHub Actions matrix semantics for the `build` job: one independent
instance per matrix value. -/
def buildJobInstances : List String :=
  buildPythonVersions

/-- GitHub Actions matrix semantics for the `notebooks` job: one instance
per matrix combination, minus the combinations named under `exclude:`. -/
def notebooksJobInstances : List String :=
  notebookMatrixList.filter (fun n => !(notebookExcludeList.contains n))

/-- `true` when some step of the list has the given `name` and its `run`
script contains the given text. -/
def someStepRuns (steps : List Step) (stepName : String) (t : String) : Bool :=
  steps.any fun s =>
    s.name == some stepName &&
      (match s.run with
       | some r => srcContains r t
       | none => false)



/-- The spec's claim C4, as stated: the workflow runs for every push and
for every pull request. -/
def claimEveryPushTriggers : Prop :=
  (∀ branch : String, runsOnPushTo ciTriggers branch = true) ∧
    runsOnPullRequest ciTriggers = true

/-- The spec's claim C2, as stated: one build-job instance per Python
version in the matrix `[3.6, 3.7, 3.8]`, each installing dependencies and
running the pytest suite; and one notebooks-job instance per entry of the
job's notebook matrix list, each executing its notebook. -/
def claimJobInstancesPerMatrixEntry : Prop :=
  buildJobInstances = buildPythonVersions ∧
  someStepRuns buildSteps "Install dependencies" "pip install .[test,demos]" = true ∧
  someStepRuns buildSteps "Run pytest tests" "py.test -ra tests/" = true ∧
  someStepRuns notebooksSteps "Run notebook" "papermill" = true ∧
  notebooksJobInstances = notebookMatrixList

/-- The excluded notebooks whose paths mention Neo4j (the group the
workflow's comment marks as requiring Neo4j). -/
def neo4jExcludes : List String :=
  notebookExcludeList.filter (fun n => srcContains n "neo4j")

/-- The remaining excluded notebooks (the group the workflow's comment
marks as not yet running on CI). -/
def nonCiExcludes : List String :=
  notebookExcludeList.filter (fun n => !(srcContains n "neo4j"))

/-- The spec's claim C10, as stated: every excluded path appears exactly
once in the matrix list, and the exclusions are the five Neo4j-dependent
notebooks and the seven notebooks not yet runnable on CI. -/
def claimExcludeListWellFormed : Prop :=
  notebookExcludeList.all (fun e => notebookMatrixList.count e == 1) = true ∧
  neo4jExcludes.length = 5 ∧
  nonCiExcludes.length = 7

/-- Modelled from the spec: `IndexedArray` is "a simplified labeled-array
type used to attach row identifiers to raw numeric feature arrays, defined
outside this excerpt"; its implementation is not part of the excerpt.
`values` lists the first-axis entries (rows) of the underlying array and
`index` the row identifiers. -/
structure IndexedArray (ρ : Type) (ι : Type) where
  values : List ρ
  index : List ι
deriving DecidableEq

/-- Modelled from the spec: the `IndexedArray(values, index=...)`
constructor.  The loading-numpy notebook states "The `index` should have
one element per row of the NumPy array"; the constructor accepts the input
exactly when it does, and the resulting array carries the given rows and
row identifiers unchanged. -/
def IndexedArray.make {ρ ι : Type} (values : List ρ) (index : List ι) :
    Except String (IndexedArray ρ ι) :=
  if index.length = values.length then Except.ok ⟨values, index⟩
  else Except.error "index length must match the first dimension of values"

/-- The node identifier attached to row `i` of an `IndexedArray`. -/
def IndexedArray.rowIdentifier {ρ ι : Type} (a : IndexedArray ρ ι)
    (i : Fin a.index.length) : ι :=
  a.index.get i

/-- Modelled from the spec: a heterogeneous `StellarGraph`, built from a
dictionary mapping node-type names to `IndexedArray`s of node features,
plus an edge set. -/
structure HeterogeneousGraph (ρ ι : Type) where
  nodeTypes : List (String × IndexedArray ρ ι)
  edges : List (ι × ι)
deriving DecidableEq

/-- Modelled from the spec: the heterogeneous `StellarGraph(...)`
constructor.  The only error behaviour the spec and the loading-numpy
notebook describe is that "Node IDs (the DataFrame index) needs to be
unique across all types ... a `StellarGraph(...)` call will throw an
error" otherwise; the constructor checks that the identifiers collected
from all the types' indices contain no duplicate. -/
def StellarGraph.mkHeterogeneous {ρ ι : Type} [DecidableEq ι]
    (nodeTypes : List (String × IndexedArray ρ ι)) (edges : List (ι × ι)) :
    Except String (HeterogeneousGraph ρ ι) :=
  if (nodeTypes.map (fun p => p.2.index)).flatten.Nodup then
    Except.ok ⟨nodeTypes, edges⟩
  else Except.error "node IDs must be unique across all types"

/-- Modelled from the spec: a homogeneous `StellarGraph` — every node
carries a node-type name and every edge an edge-type name. -/
structure HomogeneousGraph (ι : Type) where
  nodes : List (ι × String)
  edges : List ((ι × ι) × String)

/-- Modelled from the spec: the homogeneous `StellarGraph(features,
edges, node_type_default=..., edge_type_default=...)` constructor — a
single feature array and a single edge set, with every node given the
default node type and every edge the default edge type. -/
def StellarGraph.mkHomogeneous {ρ ι : Type} (features : IndexedArray ρ ι)
    (edges : List (ι × ι)) (nodeTypeDefault : String) (edgeTypeDefault : String) :
    HomogeneousGraph ι :=
  ⟨features.index.map (fun n => (n, nodeTypeDefault)),
    edges.map (fun e => (e, edgeTypeDefault))⟩

/-- Modelled from the spec: `StellarGraph(features, edges)` with the
`node_type_default` and `edge_type_default` parameters left out — both
default to `"default"`. -/
def StellarGraph.mkHomogeneousDefault {ρ ι : Type} (features : IndexedArray ρ ι)
    (edges : List (ι × ι)) : HomogeneousGraph ι :=
  StellarGraph.mkHomogeneous features edges "default" "default"

/-- Modelled from the spec: the node-type names that `info()` reports —
the distinct node types present in the graph, in order of first
appearance. -/
def HomogeneousGraph.infoNodeTypes {ι : Type} (g : HomogeneousGraph ι) : List String :=
  (g.nodes.map (fun p => p.2)).dedup

/-- Modelled from the spec: the edge-type names that `info()` reports. -/
def HomogeneousGraph.infoEdgeTypes {ι : Type} (g : HomogeneousGraph ι) : List String :=
  (g.edges.map (fun p => p.2)).dedup

/-- A call of one of the library constructors `StellarGraph`,
`StellarGraph.from_networkx` or `IndexedArray` appearing in a notebook
code cell: the notebook, the execution count of the cell holding the
call, the callee, the number of positional arguments and the keyword
arguments, in source order. -/
structure APICall where
  notebook : String
  cellExecutionCount : Nat
  callee : String
  positionalArgs : Nat
  keywordArgs : List String
deriving DecidableEq

/-- Every call of `StellarGraph`, `StellarGraph.from_networkx` or
`IndexedArray` in the code cells of the four notebooks, in document
order, transcribed from the embedded sources above.  Cell 22 of the
loading-numpy notebook mentions a further `StellarGraph(...)` call only
inside a comment ("# Uncomment to see the error"), which is not a call.
The other two notebooks contain no call of these constructors. -/
def notebookAPICalls : List APICall := [
  ⟨"demos/basics/loading-numpy.ipynb", 7, "StellarGraph", 2, []⟩,
  ⟨"demos/basics/loading-numpy.ipynb", 9, "StellarGraph", 2,
    ["node_type_default", "edge_type_default"]⟩,
  ⟨"demos/basics/loading-numpy.ipynb", 12, "IndexedArray", 1, ["index"]⟩,
  ⟨"demos/basics/loading-numpy.ipynb", 13, "StellarGraph", 2,
    ["node_type_default", "edge_type_default"]⟩,
  ⟨"demos/basics/loading-numpy.ipynb", 15, "IndexedArray", 1, ["index"]⟩,
  ⟨"demos/basics/loading-numpy.ipynb", 16, "StellarGraph", 2,
    ["node_type_default", "edge_type_default"]⟩,
  ⟨"demos/basics/loading-numpy.ipynb", 17, "IndexedArray", 0, ["index"]⟩,
  ⟨"demos/basics/loading-numpy.ipynb", 19, "IndexedArray", 1, ["index"]⟩,
  ⟨"demos/basics/loading-numpy.ipynb", 20, "StellarGraph", 2, []⟩,
  ⟨"demos/basics/loading-numpy.ipynb", 21, "IndexedArray", 0, ["index"]⟩,
  ⟨"demos/basics/loading-numpy.ipynb", 23, "IndexedArray", 1, ["index"]⟩,
  ⟨"demos/basics/loading-numpy.ipynb", 24, "IndexedArray", 1, ["index"]⟩,
  ⟨"demos/basics/loading-numpy.ipynb", 26, "IndexedArray", 1, ["index"]⟩,
  ⟨"demos/basics/loading-numpy.ipynb", 27, "StellarGraph", 2, []⟩,
  ⟨"demos/basics/loading-networkx.ipynb", 6, "StellarGraph.from_networkx", 1, []⟩,
  ⟨"demos/basics/loading-networkx.ipynb", 8, "StellarGraph.from_networkx", 1,
    ["node_type_default", "edge_type_default"]⟩,
  ⟨"demos/basics/loading-networkx.ipynb", 10, "StellarGraph.from_networkx", 1,
    ["node_features"]⟩,
  ⟨"demos/basics/loading-networkx.ipynb", 12, "StellarGraph.from_networkx", 1,
    ["node_features"]⟩,
  ⟨"demos/basics/loading-networkx.ipynb", 13, "StellarGraph.from_networkx", 1, []⟩,
  ⟨"demos/basics/loading-networkx.ipynb", 14, "StellarGraph.from_networkx", 1,
    ["edge_weight_attr"]⟩,
  ⟨"demos/basics/loading-networkx.ipynb", 15, "StellarGraph.from_networkx", 1, []⟩,
  ⟨"demos/basics/loading-networkx.ipynb", 16, "StellarGraph.from_networkx", 1, []⟩,
  ⟨"demos/basics/loading-networkx.ipynb", 17, "StellarGraph.from_networkx", 1,
    ["node_type_default"]⟩,
  ⟨"demos/basics/loading-networkx.ipynb", 18, "StellarGraph.from_networkx", 1,
    ["node_type_default", "node_type_attr"]⟩,
  ⟨"demos/basics/loading-networkx.ipynb", 20, "StellarGraph.from_networkx", 1,
    ["node_features"]⟩,
  ⟨"demos/basics/loading-networkx.ipynb", 22, "StellarGraph.from_networkx", 1,
    ["node_features"]⟩,
  ⟨"demos/basics/loading-networkx.ipynb", 24, "StellarGraph.from_networkx", 1, []⟩,
  ⟨"demos/basics/loading-networkx.ipynb", 26, "StellarGraph.from_networkx", 1,
    ["node_features"]⟩
]

/-- Two keyword-argument lists name the same set of keywords. -/
def sameKeywordSet (a b : List String) : Bool :=
  a.all (fun k => b.contains k) && b.all (fun k => a.contains k)

/-- Some notebook code cell calls `callee` with exactly the keyword
parameters `kws`. -/
def hasCallWithExactKeywords (callee : String) (kws : List String) : Bool :=
  notebookAPICalls.any (fun c => c.callee == callee && sameKeywordSet c.keywordArgs kws)

/-- Some notebook code cell calls `callee` passing the keyword parameter
`kw` (possibly among others). -/
def hasCallWithKeyword (callee kw : String) : Bool :=
  notebookAPICalls.any (fun c => c.callee == callee && c.keywordArgs.contains kw)

/-- The spec's claim C3, as stated: for each of the three call shapes the
spec lists, some notebook code cell invokes that callable with exactly
those keyword parameters. -/
def claimCallShapesAppear : Prop :=
  hasCallWithExactKeywords "StellarGraph" ["node_type_default", "edge_type_default"] = true ∧
  hasCallWithExactKeywords "StellarGraph.from_networkx"
    ["node_features", "edge_weight_attr", "node_type_attr"] = true ∧
  hasCallWithExactKeywords "IndexedArray" ["index"] = true

/-- Deduplicating the image of a nonempty list under a constant function
leaves a single element. -/
theorem dedup_map_const {α : Type} (l : List α) (c : String) (h : l ≠ []) :
    (l.map (fun _ => c)).dedup = [c] := by
  induction l with
  | nil => exact absurd rfl h
  | cons a t ih =>
    cases t with
    | nil => simp
    | cons b t2 =>
      have hmem : c ∈ (b :: t2 : List α).map (fun _ => c) := by simp
      rw [List.map_cons, List.dedup_cons_of_mem hmem, ih (by simp)]

/-- Tagging every element of a nonempty list with `c`, projecting the tag
and deduplicating leaves exactly `[c]`. -/
theorem dedup_tagged_const {α : Type} (l : List α) (c : String) (h : l ≠ []) :
    ((l.map (fun x => (x, c))).map (fun p => p.2)).dedup = [c] := by
  rw [List.map_map]
  exact dedup_map_const l c h

/-- C8: in each of the four notebooks of the material, the recorded
execution counts of the code cells form the strictly increasing sequence
`1, 2, 3, ...` in document order, with no cell executed out of order or
re-executed. -/
theorem notebook_execution_counts_sequential :
    executionCounts loadingNumpyCells = countUpFrom1 loadingNumpyCells.length ∧
    executionCounts loadCoraNeo4jCells = countUpFrom1 loadCoraNeo4jCells.length ∧
    executionCounts gcnGraphClassificationCells = countUpFrom1 gcnGraphClassificationCells.length ∧
    executionCounts loadingNetworkxCells = countUpFrom1 loadingNetworkxCells.length :=
  ⟨rfl, rfl, rfl, rfl⟩

/-- C9: every notebook of the material validates the installed
stellargraph version as exactly `1.2.1` in its first code cell that uses
the library, and the version-check cell, when the validation utility does
not exist, raises a `ValueError` whose message names the installed
version. -/
theorem notebooks_validate_version_before_use :
    (checksVersionBeforeUse loadingNumpyCells = true ∧
      checksVersionBeforeUse loadCoraNeo4jCells = true ∧
      checksVersionBeforeUse gcnGraphClassificationCells = true ∧
      checksVersionBeforeUse loadingNetworkxCells = true) ∧
    (∀ v : String, ∃ pre post : String,
      runVersionCheckCell false v = Except.error (pre ++ v ++ post)) := by
  refine ⟨⟨by decide, by decide, by decide, by decide⟩, ?_⟩
  intro v
  exact ⟨"This notebook requires StellarGraph version 1.2.1, but a different version ",
    " is installed.  Please see <https://github.com/stellargraph/stellargraph/issues/1172>.",
    rfl⟩

/-- C4 (counterexample): the workflow's `push` trigger carries the branch
filter `[develop, master]`; a push to the branch `feature` does not
trigger the workflow, so the claim as stated is false. -/
theorem ci_push_trigger_counterexample :
    runsOnPushTo ciTriggers "feature" = false ∧ ¬ claimEveryPushTriggers :=
  ⟨by decide, fun h => absurd (h.1 "feature") (by decide)⟩

/-- C4 (amended): the workflow runs for every pull request, and for a
push exactly when the push is to `develop` or to `master`. -/
theorem ci_triggers_amended :
    (∀ branch : String,
      runsOnPushTo ciTriggers branch = true ↔ (branch = "develop" ∨ branch = "master")) ∧
    runsOnPullRequest ciTriggers = true := by
  refine ⟨fun branch => ?_, rfl⟩
  simp [runsOnPushTo, ciTriggers]

/-- C4 (witness): a push to `develop` triggers the workflow. -/
theorem ci_triggers_amended_witness :
    runsOnPushTo ciTriggers "develop" = true :=
  (ci_triggers_amended.1 "develop").mpr (Or.inl rfl)

/-- C2 (counterexample): `demos/basics/loading-saving-neo4j.ipynb` is in
the notebooks job's matrix list but is named under `exclude:`, so no
instance of the job runs it; the claim as stated is false. -/
theorem ci_notebooks_instance_counterexample :
    "demos/basics/loading-saving-neo4j.ipynb" ∈ notebookMatrixList ∧
    "demos/basics/loading-saving-neo4j.ipynb" ∉ notebooksJobInstances ∧
    ¬ claimJobInstancesPerMatrixEntry := by
  refine ⟨by decide, by decide, fun h => ?_⟩
  have hmem : "demos/basics/loading-saving-neo4j.ipynb" ∈ notebooksJobInstances :=
    h.2.2.2.2.symm ▸
      (by decide : "demos/basics/loading-saving-neo4j.ipynb" ∈ notebookMatrixList)
  exact (by decide : "demos/basics/loading-saving-neo4j.ipynb" ∉ notebooksJobInstances) hmem

/-- C2 (amended): the build job runs one instance per Python version in
`[3.6, 3.7, 3.8]`, each installing dependencies and running the pytest
suite; the notebooks job runs one instance per notebook of its matrix
list that is not named under `exclude:` (43 of the 56), each executing
its notebook with papermill. -/
theorem ci_job_matrices_amended :
    buildJobInstances = ["3.6", "3.7", "3.8"] ∧
    someStepRuns buildSteps "Install dependencies" "pip install .[test,demos]" = true ∧
    someStepRuns buildSteps "Run pytest tests" "py.test -ra tests/" = true ∧
    someStepRuns notebooksSteps "Run notebook" "papermill" = true ∧
    (∀ n : String,
      n ∈ notebooksJobInstances ↔ (n ∈ notebookMatrixList ∧ n ∉ notebookExcludeList)) ∧
    notebooksJobInstances.Nodup ∧
    notebooksJobInstances.length = 43 := by
  refine ⟨rfl, by decide, by decide, by decide, fun n => ?_, by decide, by decide⟩
  simp [notebooksJobInstances, List.mem_filter]

/-- C2 (witness): `demos/basics/loading-numpy.ipynb` gets a notebooks-job
instance. -/
theorem ci_job_matrices_amended_witness :
    "demos/basics/loading-numpy.ipynb" ∈ notebooksJobInstances :=
  (ci_job_matrices_amended.2.2.2.2.1 "demos/basics/loading-numpy.ipynb").mpr
    ⟨by decide, by decide⟩

/-- C7: the build job's final two steps upload the per-version pytest
results file (an artifact step with `if: always()`, so it runs even when
an earlier step failed) and then coverage to Codecov; the notebooks job's
final step uploads the executed notebook as an artifact, also with
`if: always()`. -/
theorem ci_upload_steps_run_always :
    buildSteps.find? (fun s => s.name == some "Upload pytest test results") =
      some ⟨some "Upload pytest test results", some "actions/upload-artifact@v1", none, none,
        some "pytest-results-$\x7b\x7b matrix.python-version \x7d\x7d",
        some "pytest-results-$\x7b\x7b matrix.python-version \x7d\x7d.xml", true⟩ ∧
    buildSteps.find? (fun s => s.name == some "Upload coverage to Codecov") =
      some ⟨some "Upload coverage to Codecov", some "codecov/codecov-action@v1",
        none, none, none, none, false⟩ ∧
    notebooksSteps.find? (fun s => s.name == some "Upload artifact") =
      some ⟨some "Upload artifact", some "actions/upload-artifact@v1", none, none,
        some "$\x7b\x7b steps.run_notebook.outputs.notebook_name \x7d\x7d",
        some "$\x7b\x7b matrix.notebook \x7d\x7d", true⟩ ∧
    (buildSteps.map (fun s => s.name)).drop 5 =
      [some "Upload pytest test results", some "Upload coverage to Codecov"] ∧
    (notebooksSteps.map (fun s => s.name)).getLast? = some (some "Upload artifact") :=
  ⟨rfl, rfl, rfl, rfl, rfl⟩

/-- C10 (counterexample): the not-yet-runnable group of the `exclude:`
list has eight entries, not seven, so the claim as stated is false. -/
theorem ci_exclude_count_counterexample :
    nonCiExcludes.length = 8 ∧ ¬ claimExcludeListWellFormed :=
  ⟨by decide, fun h => absurd h.2.2 (by decide)⟩

/-- C10 (amended): every notebook path under `exclude:` appears exactly
once in the matrix list, so each exclusion removes exactly one existing
matrix entry — the five Neo4j-dependent notebooks and the eight notebooks
not yet runnable on CI. -/
theorem ci_exclude_list_well_formed :
    notebookExcludeList.all (fun e => notebookMatrixList.count e == 1) = true ∧
    neo4jExcludes.length = 5 ∧
    nonCiExcludes.length = 8 :=
  ⟨by decide, by decide, by decide⟩

/-- C3 (counterexample): no notebook code cell calls
`StellarGraph.from_networkx` with exactly the keyword parameters
`node_features`, `edge_weight_attr` and `node_type_attr` together, so the
claim as stated is false. -/
theorem call_shapes_counterexample :
    hasCallWithExactKeywords "StellarGraph.from_networkx"
      ["node_features", "edge_weight_attr", "node_type_attr"] = false ∧
    ¬ claimCallShapesAppear :=
  ⟨by decide, fun h => absurd h.2.1 (by decide)⟩

/-- C3 (amended): the `StellarGraph(features, edges,
node_type_default=..., edge_type_default=...)` and `IndexedArray(values,
index=...)` shapes are invoked exactly as listed; for
`StellarGraph.from_networkx`, each of the keyword parameters
`node_features`, `edge_weight_attr` and `node_type_attr` is passed by
some call, but no single call passes all three together. -/
theorem call_shapes_amended :
    hasCallWithExactKeywords "StellarGraph" ["node_type_default", "edge_type_default"] = true ∧
    hasCallWithExactKeywords "IndexedArray" ["index"] = true ∧
    hasCallWithKeyword "StellarGraph.from_networkx" "node_features" = true ∧
    hasCallWithKeyword "StellarGraph.from_networkx" "edge_weight_attr" = true ∧
    hasCallWithKeyword "StellarGraph.from_networkx" "node_type_attr" = true ∧
    hasCallWithExactKeywords "StellarGraph.from_networkx"
      ["node_features", "edge_weight_attr", "node_type_attr"] = false :=
  ⟨by decide, by decide, by decide, by decide, by decide, by decide⟩

/-- C1: constructing a heterogeneous StellarGraph whose node identifiers
are not unique across node types throws: whenever some node ID appears in
the index of two different types, the constructor returns an error, and
for input whose IDs are unique across all the types' indices it
succeeds. -/
theorem heterogeneous_duplicate_ids_error {ρ ι : Type} [DecidableEq ι]
    (nodeTypes : List (String × IndexedArray ρ ι)) (edges : List (ι × ι)) :
    (∀ i j : Fin nodeTypes.length, i ≠ j → ∀ x : ι,
      x ∈ (nodeTypes.get i).2.index → x ∈ (nodeTypes.get j).2.index →
      StellarGraph.mkHeterogeneous nodeTypes edges =
        Except.error "node IDs must be unique across all types") ∧
    ((nodeTypes.map (fun p => p.2.index)).flatten.Nodup →
      StellarGraph.mkHeterogeneous nodeTypes edges = Except.ok ⟨nodeTypes, edges⟩) := by
  constructor
  · intro i j hij x hxi hxj
    have hnodup : ¬ (nodeTypes.map (fun p => p.2.index)).flatten.Nodup := by
      intro hnd
      have hpw := (List.nodup_flatten.mp hnd).2
      rw [List.get_eq_getElem] at hxi hxj
      rcases hij.lt_or_lt with hlt | hlt
      · have hd := List.pairwise_iff_getElem.mp hpw i.val j.val
          (by simp) (by simp) hlt
        simp only [List.getElem_map] at hd
        exact hd hxi hxj
      · have hd := List.pairwise_iff_getElem.mp hpw j.val i.val
          (by simp) (by simp) hlt
        simp only [List.getElem_map] at hd
        exact hd hxj hxi
    simp [StellarGraph.mkHeterogeneous, hnodup]
  · intro h
    simp [StellarGraph.mkHeterogeneous, h]

/-- C1 (witness): the loading-numpy notebook's overlap example — node ID
`"b"` filed both under type `foo` and under type `bar` — is rejected, and
the original heterogeneous example with the distinct ID `"a"` is
accepted. -/
theorem heterogeneous_duplicate_ids_error_witness :
    StellarGraph.mkHeterogeneous
        [("foo", (⟨[[]], ["b"]⟩ : IndexedArray (List Int) String)),
          ("bar", ⟨[[4, 100], [1, 200], [9, 300]], ["b", "c", "d"]⟩)]
        [("a", "b"), ("b", "c"), ("c", "d"), ("d", "a"), ("a", "c")] =
      Except.error "node IDs must be unique across all types" ∧
    StellarGraph.mkHeterogeneous
        [("foo", (⟨[[]], ["a"]⟩ : IndexedArray (List Int) String)),
          ("bar", ⟨[[4, 100], [1, 200], [9, 300]], ["b", "c", "d"]⟩)]
        [("a", "b"), ("b", "c"), ("c", "d"), ("d", "a"), ("a", "c")] =
      Except.ok ⟨[("foo", ⟨[[]], ["a"]⟩),
        ("bar", ⟨[[4, 100], [1, 200], [9, 300]], ["b", "c", "d"]⟩)],
        [("a", "b"), ("b", "c"), ("c", "d"), ("d", "a"), ("a", "c")]⟩ :=
  ⟨(heterogeneous_duplicate_ids_error _ _).1 ⟨0, by decide⟩ ⟨1, by decide⟩
      (by decide) "b" (by decide) (by decide),
    (heterogeneous_duplicate_ids_error _ _).2 (by decide)⟩

/-- C5: `IndexedArray` attaches row identifiers to a raw feature array:
an `IndexedArray(values, index=...)` construction succeeds exactly when
the index has one element per row (first-axis entry) of the values, the
constructed array carries the given rows and identifiers unchanged, and
the `i`-th index element is the identifier of row `i`. -/
theorem indexed_array_attaches_row_identifiers {ρ ι : Type}
    (values : List ρ) (index : List ι) :
    (index.length = values.length →
      IndexedArray.make values index = Except.ok ⟨values, index⟩ ∧
      ∀ i : Fin index.length,
        IndexedArray.rowIdentifier (⟨values, index⟩ : IndexedArray ρ ι) i = index.get i) ∧
    (index.length ≠ values.length →
      IndexedArray.make values index =
        Except.error "index length must match the first dimension of values") := by
  constructor
  · intro h
    exact ⟨by simp [IndexedArray.make, h], fun i => rfl⟩
  · intro h
    simp [IndexedArray.make, h]

/-- C5 (witness): the loading-numpy notebook's construction
`IndexedArray(feature_array, index=["a", "b", "c", "d"])` succeeds, keeps
its four rows and labels row 0 with `"a"`. -/
theorem indexed_array_attaches_row_identifiers_witness :
    IndexedArray.make [[10, -2], [20, 3], [30, 0], [40, -5]]
        (["a", "b", "c", "d"] : List String) =
      Except.ok ⟨[[10, -2], [20, 3], [30, 0], [40, -5]], ["a", "b", "c", "d"]⟩ ∧
    IndexedArray.rowIdentifier
        (⟨[[10, -2], [20, 3], [30, 0], [40, -5]], ["a", "b", "c", "d"]⟩ :
          IndexedArray (List Int) String) ⟨0, by decide⟩ = "a" := by
  have h := (indexed_array_attaches_row_identifiers
    ([[10, -2], [20, 3], [30, 0], [40, -5]] : List (List Int))
    (["a", "b", "c", "d"] : List String)).1 (by decide)
  exact ⟨h.1, h.2 ⟨0, by decide⟩⟩

/-- C6: a homogeneous StellarGraph built from a single feature array and
a single edge set has exactly one node type and one edge type: `info()`
reports the single node-type name and the single edge-type name, which
are `"default"` unless `node_type_default` and `edge_type_default`
override them. -/
theorem homogeneous_graph_single_types {ρ ι : Type}
    (features : IndexedArray ρ ι) (edges : List (ι × ι)) (ntd etd : String)
    (hn : features.index ≠ []) (he : edges ≠ []) :
    (StellarGraph.mkHomogeneous features edges ntd etd).infoNodeTypes = [ntd] ∧
    (StellarGraph.mkHomogeneous features edges ntd etd).infoEdgeTypes = [etd] ∧
    (StellarGraph.mkHomogeneousDefault features edges).infoNodeTypes = ["default"] ∧
    (StellarGraph.mkHomogeneousDefault features edges).infoEdgeTypes = ["default"] :=
  ⟨dedup_tagged_const features.index ntd hn,
    dedup_tagged_const edges etd he,
    dedup_tagged_const features.index "default" hn,
    dedup_tagged_const edges "default" he⟩

/-- C6 (witness): the loading-numpy notebook's square graph with
`node_type_default="corner"` and `edge_type_default="line"` reports
exactly the node type `corner` and the edge type `line`. -/
theorem homogeneous_graph_single_types_witness :
    (StellarGraph.mkHomogeneous
        (⟨[[10, -2], [20, 3], [30, 0], [40, -5]], ["a", "b", "c", "d"]⟩ :
          IndexedArray (List Int) String)
        [("a", "b"), ("b", "c"), ("c", "d"), ("d", "a"), ("a", "c")]
        "corner" "line").infoNodeTypes = ["corner"] ∧
    (StellarGraph.mkHomogeneous
        (⟨[[10, -2], [20, 3], [30, 0], [40, -5]], ["a", "b", "c", "d"]⟩ :
          IndexedArray (List Int) String)
        [("a", "b"), ("b", "c"), ("c", "d"), ("d", "a"), ("a", "c")]
        "corner" "line").infoEdgeTypes = ["line"] :=
  ⟨(homogeneous_graph_single_types _ _ "corner" "line" (by decide) (by decide)).1,
    (homogeneous_graph_single_types _ _ "corner" "line" (by decide) (by decide)).2.1⟩

end StellarGraphSpec
